import Mathlib

/-!
Verification development for the `map-legacy` DSL front end.

The Rust sources under `src/src/parsing/` (`mod.rs`, `expression.rs`,
`error.rs`) and `src/src/key_defs.rs` are shallowly embedded below.
Parsers are modelled as functions `List Char → Option (List Char × α)`
(nom's `IResult`, with the error payload abstracted away: `none` is a
recoverable failure that consumes no input, matching nom's backtracking
contract).  Rust recursion is realised through an explicit fuel
parameter; every recursive re-entry into the expression or statement
grammar consumes at least one character first, so fuel `length + 1`
at each entry point is always sufficient.

Helper modules of the repository that are not present under `src/`
(`primitives.rs`, `identifier.rs`, `variable.rs`, `function.rs`,
`key.rs`, `key_action.rs`, `key_mapping.rs`, `lambda.rs`,
`custom_combinators.rs`) are modelled from the spec; each such
definition carries a doc comment starting with `Modelled from the
spec:`.
-/

/-- A backtracking parser over a character list: `none` on failure
(no input consumed, per the repository's failure policy), otherwise
the remaining input and the parsed value. -/
def Parser (α : Type) : Type := List Char → Option (List Char × α)

/-- nom's binary alternation: try the first parser, on failure retry
the second from the same position (first match wins). -/
def orElseP {α : Type} (p q : Parser α) : Parser α := fun s =>
  match p s with
  | none => q s
  | some r => some r

/-- nom's `alt` over a list of alternatives, tried in order with
first-match-wins semantics. -/
def firstMatch {α : Type} : List (Parser α) → Parser α
  | [] => fun _ => none
  | p :: ps => orElseP p (firstMatch ps)

/-- nom's `tag`: match a literal token at the head of the input and
return it, consuming it. -/
def tagP (t : List Char) : Parser (List Char) := fun s =>
  if t.isPrefixOf s then some (s.drop t.length, t) else none

/-- nom's `map` on a parser result. -/
def pmap {α β : Type} (p : Parser α) (f : α → β) : Parser β := fun s =>
  match p s with
  | none => none
  | some (r, a) => some (r, f a)

/-- The whitespace characters accepted by nom's `multispace0`. -/
def isWsChar (c : Char) : Bool :=
  c == ' ' || c == '\t' || c == '\n' || c == '\r'

/-- Drop leading whitespace from the input. -/
def dropWs (s : List Char) : List Char := s.dropWhile isWsChar

/-- nom's `multispace0`: consume zero or more whitespace characters;
never fails. -/
def multispace0 : Parser Unit := fun s => some (dropWs s, ())

/-- Modelled from the spec: `ws0` from the missing `primitives.rs`,
optional whitespace, taken to coincide with nom's `multispace0`. -/
def ws0 : Parser Unit := multispace0

/-- Modelled from the spec: at-least-one-whitespace separator (used
between the `let` keyword and the declared name). -/
def ws1 : Parser Unit := fun s =>
  if (s.takeWhile isWsChar).isEmpty then none else some (dropWs s, ())

/-- Consume the longest nonempty run of characters satisfying `p`;
fail if it is empty. -/
def takeWhile1P (p : Char → Bool) : Parser (List Char) := fun s =>
  let t := s.takeWhile p
  if t.isEmpty then none else some (s.drop t.length, t)

/-- Loop of nom's `many0`, fueled: collect results of `p` until it
fails, leaving the input where the last success ended. -/
def manyLoop {α : Type} (p : Parser α) : Nat → Parser (List α)
  | 0 => fun s => some (s, [])
  | f + 1 => fun s =>
    match p s with
    | none => some (s, [])
    | some (s1, a) =>
      match manyLoop p f s1 with
      | none => none
      | some (s2, xs) => some (s2, a :: xs)

/-- nom's `many0`. Each repetition of every use in this grammar
consumes at least one character, so fuel `length + 1` is sufficient. -/
def many0P {α : Type} (p : Parser α) : Parser (List α) := fun s =>
  manyLoop p (s.length + 1) s

/-- Loop of `fold_many0_once`, fueled: repeatedly run `step` and fold
its results into the accumulator, stopping (without failing) as soon
as `step` fails. -/
def foldLoop {α β : Type} (step : Parser β) (g : α → β → α) :
    Nat → α → Parser α
  | 0, acc => fun s => some (s, acc)
  | f + 1, acc => fun s =>
    match step s with
    | none => some (s, acc)
    | some (s1, b) => foldLoop step g f (g acc b) s1

/-- Modelled from the spec: `fold_many0_once` from the missing
`custom_combinators.rs` — the repeat-and-combine combinator of §4.3:
seed an accumulator, then repeatedly attempt `step` and combine
left-to-right, returning everything consumed so far the moment the
repeated pattern no longer matches.  Every `step` in this grammar
consumes at least one character (an operator token), so fuel
`length + 1` is sufficient. -/
def fold_many0_once {α β : Type} (step : Parser β) (seed : α)
    (g : α → β → α) : Parser α := fun s =>
  foldLoop step g (s.length + 1) seed s

/-!  ## The abstract syntax tree (spec §3; the defining Rust file is
not under `src/`, so the shape is modelled from the spec and from the
constructors used by `mod.rs` / `expression.rs`). -/

/-- Modelled from the spec: tagged union of literal kinds.  The
`Number` payload is `f64` in Rust; the claims under verification only
ever parse unsigned integer literals, so the payload is modelled as
the natural number denoted by the digit string. -/
inductive ValueType : Type
  | Bool (b : Bool)
  | Number (n : Nat)
  | Str (s : String)
deriving DecidableEq

/-- A canonical key identifier wrapping a platform key code
(`key_defs.rs`; the code itself comes from the external evdev crate
and is abstracted as a natural number). -/
structure Key : Type where
  event_code : Nat
deriving DecidableEq

/-- Modelled from the spec: the {shift, ctrl, alt, meta} bit-set. -/
structure KeyModifierFlags : Type where
  shift : Bool
  ctrl : Bool
  alt : Bool
  meta : Bool
deriving DecidableEq

/-- Modelled from the spec: the all-clear modifier set
(`KeyModifierFlags::new`). -/
def KeyModifierFlags.new : KeyModifierFlags :=
  { shift := false, ctrl := false, alt := false, meta := false }

/-- Modelled from the spec: a key paired with the modifiers to hold
while clicking it. -/
structure KeyClickActionWithMods : Type where
  key : Key
  modifiers : KeyModifierFlags
deriving DecidableEq

/-- Modelled from the spec: a bare key reference versus a capitalised
one that implies an implicit shift modifier. -/
inductive ParsedSingleKey : Type
  | Key (k : Key)
  | CapitalKey (k : Key)
deriving DecidableEq

/-- Modelled from the spec: the expression tree of §3. -/
inductive Expr : Type
  | Value (v : ValueType)
  | Add (a b : Expr)
  | Sub (a b : Expr)
  | Mul (a b : Expr)
  | Div (a b : Expr)
  | Eq (a b : Expr)
  | Neq (a b : Expr)
  | GT (a b : Expr)
  | LT (a b : Expr)
  | And (a b : Expr)
  | Or (a b : Expr)
  | Neg (a : Expr)
  | VariableInit (name : String) (e : Expr)
  | VariableAssign (name : String) (e : Expr)
  | FunctionCall (name : String) (args : List Expr)
  | KeyMappingInline (src : KeyClickActionWithMods)
      (dst : KeyClickActionWithMods)
  | Lambda (params : List String) (body : Expr)
  | Variable (name : String)

mutual

/-- Modelled from the spec: the statement tree of §3. -/
inductive Stmt : Type
  | Expr (e : Expr)
  | If (cond : Expr) (body : Block)
  | Block (b : Block)

/-- Modelled from the spec: an ordered sequence of statements whose
insertion order is load-bearing. -/
inductive Block : Type
  | mk (statements : List Stmt)

end

/-- The statement list of a block. -/
def Block.statements : Block → List Stmt
  | .mk l => l

/-- `Block::new()`: the empty block. -/
def Block.new : Block := .mk []

/-!  ## Key registry and event templates (`key_defs.rs`) -/

/-- A timestamp (`evdev_rs::TimeVal`). -/
structure TimeVal : Type where
  tv_sec : Int
  tv_usec : Int
deriving DecidableEq

/-- An input event template: event code, value and timestamp. -/
structure InputEvent : Type where
  event_code : Nat
  value : Int
  time : TimeVal
deriving DecidableEq

/-- The zero sentinel timestamp (`INPUT_EV_DUMMY_TIME`). -/
def INPUT_EV_DUMMY_TIME : TimeVal := { tv_sec := 0, tv_usec := 0 }

/-- `make_key`: wrap an event code as a `Key`. -/
def make_key (event_code : Nat) : Key := { event_code := event_code }

/-- `InputEvGroup`: the immutable triple of pre-built event templates
for one canonical key. -/
structure InputEvGroup : Type where
  up : InputEvent
  down : InputEvent
  repeat_ : InputEvent
deriving DecidableEq

/-- `InputEvGroup::new`: three templates sharing one event code,
with values 0 (up), 1 (down), 2 (repeat) and the sentinel time. -/
def InputEvGroup.new (event_code : Nat) : InputEvGroup :=
  { up := { event_code := event_code, value := 0, time := INPUT_EV_DUMMY_TIME }
    down := { event_code := event_code, value := 1, time := INPUT_EV_DUMMY_TIME }
    repeat_ := { event_code := event_code, value := 2, time := INPUT_EV_DUMMY_TIME } }

/-- `InputEvGroup::to_key`: reverse lookup from the group back to its
originating key, read off the `up` template. -/
def InputEvGroup.to_key (g : InputEvGroup) : Key := make_key g.up.event_code

/-!  ## Modelled key-name resolution and key-action parsing
(`key.rs` / `key_action.rs` / `key_mapping.rs` are not under `src/`). -/

/-- Modelled from the spec: the registry's exact-match lookup from a
symbolic key name to a key code (`key.rs` is missing; actual codes
live in the external evdev crate, so single letters are mapped to
their character code and a few named keys to fixed codes). -/
def keyNameCode (w : List Char) : Option Nat :=
  match w with
  | [c] => if c.isLower then some c.toNat else none
  | _ =>
    if w = "enter".data then some 28
    else if w = "esc".data then some 1
    else if w = "tab".data then some 15
    else if w = "space".data then some 57
    else if w = "capslock".data then some 58
    else none

/-- Modelled from the spec: the `key` parser — read an alphanumeric
word, resolve it through the registry; a single capital letter becomes
a `CapitalKey` of its lowercase form, anything unresolved fails. -/
def keyP : Parser ParsedSingleKey := fun s =>
  match takeWhile1P Char.isAlphanum s with
  | none => none
  | some (r, w) =>
    match w with
    | [c] =>
      if c.isUpper then
        match keyNameCode [c.toLower] with
        | some code => some (r, ParsedSingleKey.CapitalKey (make_key code))
        | none => none
      else
        match keyNameCode w with
        | some code => some (r, ParsedSingleKey.Key (make_key code))
        | none => none
    | _ =>
      match keyNameCode w with
      | some code => some (r, ParsedSingleKey.Key (make_key code))
      | none => none

/-- Is `c` one of the modifier prefix markers
(`!` alt, `^` ctrl, `+` shift, `#` meta)? -/
def isModChar (c : Char) : Bool :=
  c == '!' || c == '^' || c == '+' || c == '#'

/-- Fold a run of modifier prefix markers into a flag set. -/
def applyMods (flags : KeyModifierFlags) (cs : List Char) :
    KeyModifierFlags :=
  cs.foldl
    (fun f c =>
      if c == '!' then { f with alt := true }
      else if c == '^' then { f with ctrl := true }
      else if c == '+' then { f with shift := true }
      else { f with meta := true })
    flags

/-- Modelled from the spec: `key_action_with_flags` — optional
modifier prefix markers followed by a key; a capitalised key implies
an implicit shift modifier. -/
def key_action_with_flags : Parser KeyClickActionWithMods := fun s =>
  let mods := s.takeWhile isModChar
  let rest := s.drop mods.length
  match keyP rest with
  | none => none
  | some (r, ParsedSingleKey.Key k) =>
    some (r, { key := k, modifiers := applyMods KeyModifierFlags.new mods })
  | some (r, ParsedSingleKey.CapitalKey k) =>
    some (r, { key := k,
               modifiers := { applyMods KeyModifierFlags.new mods with shift := true } })

/-- Modelled from the spec: the inline key-mapping literal — a source
key action, the `::` token, and a destination key action. -/
def key_mapping_inline : Parser Expr := fun s =>
  match key_action_with_flags s with
  | none => none
  | some (r1, src) =>
    match tagP "::".data r1 with
    | none => none
    | some (r2, _) =>
      match key_action_with_flags r2 with
      | none => none
      | some (r3, dst) => some (r3, Expr.KeyMappingInline src dst)

/-- Modelled from the spec: the legacy `key_mapping` alternative
(`key_mapping.rs` is missing; the legacy chain tries
`key_mapping_inline` first, so this alternative is modelled as the
same inline-mapping parser). -/
def key_mapping : Parser Expr := key_mapping_inline

/-!  ## Modelled atom parsers (`primitives.rs`, `identifier.rs`,
`variable.rs`, `function.rs`, `lambda.rs` are not under `src/`). -/

/-- Modelled from the spec: an identifier — a letter or underscore
followed by letters, digits or underscores. -/
def identP : Parser (List Char) := fun s =>
  match s with
  | [] => none
  | c :: _ =>
    if c.isAlpha || c == '_' then
      takeWhile1P (fun c2 => c2.isAlphanum || c2 == '_') s
    else none

/-- Modelled from the spec: the boolean literal parser. -/
def boolean : Parser Expr :=
  orElseP (pmap (tagP "true".data) (fun _ => Expr.Value (ValueType.Bool true)))
    (pmap (tagP "false".data) (fun _ => Expr.Value (ValueType.Bool false)))

/-- Modelled from the spec: the string literal parser — a double
quote, the literal content, a closing double quote. -/
def string_lit : Parser Expr := fun s =>
  match s with
  | '"' :: r =>
    let content := r.takeWhile (fun c => c != '"')
    match r.drop content.length with
    | '"' :: r2 => some (r2, Expr.Value (ValueType.Str (String.mk content)))
    | _ => none
  | _ => none

/-- The numeric value of a digit string. -/
def natOfDigits (ds : List Char) : Nat :=
  ds.foldl (fun a c => a * 10 + (c.toNat - 48)) 0

/-- Modelled from the spec: the numeric literal parser — a nonempty
run of digits. -/
def number : Parser Expr :=
  pmap (takeWhile1P Char.isDigit)
    (fun ds => Expr.Value (ValueType.Number (natOfDigits ds)))

/-- Modelled from the spec: the bare variable reference. -/
def variableP : Parser Expr :=
  pmap identP (fun w => Expr.Variable (String.mk w))

/-- Modelled from the spec: `let name = expr` (the sub-expression is
parsed by the grammar's recursive entry `rec`). -/
def variable_initialization (rec : Parser Expr) : Parser Expr := fun s =>
  match tagP "let".data s with
  | none => none
  | some (r1, _) =>
    match ws1 r1 with
    | none => none
    | some (r2, _) =>
      match identP r2 with
      | none => none
      | some (r3, name) =>
        match tagP "=".data (dropWs r3) with
        | none => none
        | some (r4, _) =>
          match rec (dropWs r4) with
          | none => none
          | some (r5, e) => some (r5, Expr.VariableInit (String.mk name) e)

/-- Modelled from the spec: `name = expr`. -/
def variable_assignment (rec : Parser Expr) : Parser Expr := fun s =>
  match identP s with
  | none => none
  | some (r1, name) =>
    match tagP "=".data (dropWs r1) with
    | none => none
    | some (r2, _) =>
      match rec (dropWs r2) with
      | none => none
      | some (r3, e) => some (r3, Expr.VariableAssign (String.mk name) e)

/-- Modelled from the spec: `name(arg, arg, ...)`. -/
def function_call (rec : Parser Expr) : Parser Expr := fun s =>
  match identP s with
  | none => none
  | some (r1, name) =>
    match tagP "(".data r1 with
    | none => none
    | some (r2, _) =>
      match rec (dropWs r2) with
      | none =>
        match tagP ")".data (dropWs r2) with
        | some (r3, _) => some (r3, Expr.FunctionCall (String.mk name) [])
        | none => none
      | some (r3, e0) =>
        match many0P (fun i =>
            match tagP ",".data (dropWs i) with
            | none => none
            | some (i2, _) => rec (dropWs i2)) r3 with
        | none => none
        | some (r4, es) =>
          match tagP ")".data (dropWs r4) with
          | some (r5, _) => some (r5, Expr.FunctionCall (String.mk name) (e0 :: es))
          | none => none

/-- Modelled from the spec: a lambda literal — `|params| body` (the
spec only names the `Lambda(...)` node; the concrete surface syntax
is modelled as a `|`-delimited parameter list followed by a body
expression). -/
def lambda (rec : Parser Expr) : Parser Expr := fun s =>
  match tagP "|".data s with
  | none => none
  | some (r1, _) =>
    match (fun i =>
        match identP i with
        | none => some (i, ([] : List String))
        | some (i1, p0) =>
          match many0P (fun j =>
              match tagP ",".data (dropWs j) with
              | none => none
              | some (j2, _) => identP (dropWs j2)) i1 with
          | none => none
          | some (i2, ps) =>
            some (i2, String.mk p0 :: ps.map String.mk)) r1 with
    | none => none
    | some (r2, params) =>
      match tagP "|".data r2 with
      | none => none
      | some (r3, _) =>
        match rec (dropWs r3) with
        | none => none
        | some (r4, body) => some (r4, Expr.Lambda params body)

/-!  ## The five-level expression grammar (`expression.rs`).

Each level is defined as a `_body` function over the grammar's
recursive entry `rec` (the sub-expression parser used inside
parentheses and on the right-hand side of `let` / assignment /
call arguments); `expression.exprF` then ties the knot with fuel. -/

namespace expression

/-- The parenthesized sub-expression alternative of `expr_4`
(`expression.rs` line 8): `(`, a full expression, `)`. -/
def paren_expr (rec : Parser Expr) : Parser Expr := fun s =>
  match tagP "(".data s with
  | none => none
  | some (r1, _) =>
    match rec r1 with
    | none => none
    | some (r2, v) =>
      match tagP ")".data r2 with
      | none => none
      | some (r3, _) => some (r3, v)

/-- `expr_4`'s alternation (`expression.rs` lines 6–19): parenthesized
sub-expression, boolean, string, number, variable declaration,
variable assignment, function call, inline key-mapping, bare
variable — in that order, first match wins. -/
def expr_4_alts (rec : Parser Expr) : Parser Expr :=
  orElseP (paren_expr rec)
    (orElseP boolean
      (orElseP string_lit
        (orElseP number
          (orElseP (variable_initialization rec)
            (orElseP (variable_assignment rec)
              (orElseP (function_call rec)
                (orElseP key_mapping_inline variableP)))))))

/-- `expr_4` (`expression.rs` lines 3–23): the atom level — the
alternation above followed by optional trailing whitespace. -/
def expr_4_body (rec : Parser Expr) : Parser Expr := fun s =>
  match expr_4_alts rec s with
  | none => none
  | some (r, v) => some (dropWs r, v)

/-- `expr_3` (`expression.rs` lines 25–31): an optional `??` prefix
wrapping the atom level in `Neg`, else the atom level unchanged. -/
def expr_3_body (rec : Parser Expr) : Parser Expr :=
  orElseP
    (fun s =>
      match tagP "??".data s with
      | none => none
      | some (r1, _) =>
        match expr_4_body rec r1 with
        | none => none
        | some (r2, v) => some (r2, Expr.Neg v))
    (expr_4_body rec)

/-- The repeated pattern of `expr_2`'s fold: whitespace, `*` or `/`,
whitespace, the next unary-level term. -/
def expr_2_step (rec : Parser Expr) : Parser (List Char × Expr) := fun i =>
  match (orElseP (tagP "*".data) (tagP "/".data)) (dropWs i) with
  | none => none
  | some (i2, op) =>
    match expr_3_body rec (dropWs i2) with
    | none => none
    | some (i3, v) => some (i3, (op, v))

/-- The combine function of `expr_2`'s fold (`expression.rs` lines
43–49). -/
def expr_2_combine (acc : Expr) (p : List Char × Expr) : Expr :=
  match p.1 with
  | ['*'] => Expr.Mul acc p.2
  | ['/'] => Expr.Div acc p.2
  | _ => acc

/-- `expr_2` (`expression.rs` lines 33–51): left-associative fold of
`*` / `/` over the unary level. -/
def expr_2_body (rec : Parser Expr) : Parser Expr := fun i =>
  match expr_3_body rec i with
  | none => none
  | some (i1, seed) =>
    fold_many0_once (expr_2_step rec) seed expr_2_combine i1

/-- The repeated pattern of `expr_1`'s fold: whitespace, `+` or `-`,
whitespace, the next multiplicative-level term. -/
def expr_1_step (rec : Parser Expr) : Parser (List Char × Expr) := fun i =>
  match (orElseP (tagP "+".data) (tagP "-".data)) (dropWs i) with
  | none => none
  | some (i2, op) =>
    match expr_2_body rec (dropWs i2) with
    | none => none
    | some (i3, v) => some (i3, (op, v))

/-- The combine function of `expr_1`'s fold (`expression.rs` lines
63–69). -/
def expr_1_combine (acc : Expr) (p : List Char × Expr) : Expr :=
  match p.1 with
  | ['+'] => Expr.Add acc p.2
  | ['-'] => Expr.Sub acc p.2
  | _ => acc

/-- `expr_1` (`expression.rs` lines 53–71): left-associative fold of
`+` / `-` over the multiplicative level. -/
def expr_1_body (rec : Parser Expr) : Parser Expr := fun i =>
  match expr_2_body rec i with
  | none => none
  | some (i1, seed) =>
    fold_many0_once (expr_1_step rec) seed expr_1_combine i1

/-- The operator alternation of the top tier (`expression.rs` line
79): `==`, `!=`, `&&`, `||`, `<`, `>` — in that order. -/
def tier_tag : Parser (List Char) :=
  orElseP (tagP "==".data)
    (orElseP (tagP "!=".data)
      (orElseP (tagP "&&".data)
        (orElseP (tagP "||".data)
          (orElseP (tagP "<".data) (tagP ">".data)))))

/-- The repeated pattern of the top tier's fold: whitespace, one of
the tier operators, whitespace, the next additive-level term. -/
def tier_step (rec : Parser Expr) : Parser (List Char × Expr) := fun i =>
  match tier_tag (dropWs i) with
  | none => none
  | some (i2, op) =>
    match expr_1_body rec (dropWs i2) with
    | none => none
    | some (i3, v) => some (i3, (op, v))

/-- The combine function of the top tier's fold (`expression.rs`
lines 85–91): each operator produces its corresponding node. -/
def tier_combine (acc : Expr) (p : List Char × Expr) : Expr :=
  match p.1 with
  | ['=', '='] => Expr.Eq acc p.2
  | ['!', '='] => Expr.Neq acc p.2
  | ['&', '&'] => Expr.And acc p.2
  | ['|', '|'] => Expr.Or acc p.2
  | ['>'] => Expr.GT acc p.2
  | ['<'] => Expr.LT acc p.2
  | _ => acc

/-- `expr` (`expression.rs` lines 73–95): the top
relational/equality/logical tier — a left-associative fold of the six
tier operators over the additive level. -/
def expr_body (rec : Parser Expr) : Parser Expr := fun i =>
  match expr_1_body rec i with
  | none => none
  | some (i1, seed) =>
    fold_many0_once (tier_step rec) seed tier_combine i1

/-- The fueled recursive knot of the five-level grammar: each
re-entry (inside parentheses, a `let` / assignment right-hand side, a
call argument or a lambda body) spends one unit of fuel, and each
such re-entry consumes at least one character first. -/
def exprF : Nat → Parser Expr
  | 0 => fun _ => none
  | f + 1 => expr_body (exprF f)

/-- The expression entry point: the top tier, with enough fuel for
any input of this length. -/
def expr : Parser Expr := fun s => expr_body (exprF s.length) s

/-- The atom level as an entry point. -/
def expr_4 : Parser Expr := fun s => expr_4_body (exprF s.length) s

/-- The unary level as an entry point. -/
def expr_3 : Parser Expr := fun s => expr_3_body (exprF s.length) s

/-- The multiplicative level as an entry point. -/
def expr_2 : Parser Expr := fun s => expr_2_body (exprF s.length) s

/-- The additive level as an entry point. -/
def expr_1 : Parser Expr := fun s => expr_1_body (exprF s.length) s

end expression

/-!  ## The legacy statement-level grammar (`mod.rs`).

`mod.rs` defines its own `expr_simple` / `expr` pair (lines 47–91),
distinct from the five-level grammar of `expression.rs`, and the
statement grammar (`if_stmt`, `stmt`, `block_body`, `block`,
`global_block`) is built on it. -/

namespace parsing

/-- `expr_simple`'s alternation (`mod.rs` lines 51–61): boolean,
string, lambda, variable declaration, variable assignment, function
call, inline key-mapping, key-mapping, bare variable — in that
order. -/
def expr_simple_alts (rec : Parser Expr) : Parser Expr :=
  orElseP boolean
    (orElseP string_lit
      (orElseP (lambda rec)
        (orElseP (variable_initialization rec)
          (orElseP (variable_assignment rec)
            (orElseP (function_call rec)
              (orElseP key_mapping_inline
                (orElseP key_mapping variableP)))))))

/-- `expr_simple` (`mod.rs` lines 47–65): the alternation above
followed by optional trailing whitespace. -/
def expr_simple_body (rec : Parser Expr) : Parser Expr := fun s =>
  match expr_simple_alts rec s with
  | none => none
  | some (r, v) => some (dropWs r, v)

/-- The repeated pattern of the legacy `expr` fold (`mod.rs` lines
70–80): whitespace, `==` or `!=`, whitespace, `expr_simple`. -/
def legacy_step (rec : Parser Expr) : Parser (List Char × Expr) := fun i =>
  match (orElseP (tagP "==".data) (tagP "!=".data)) (dropWs i) with
  | none => none
  | some (i2, op) =>
    match expr_simple_body rec (dropWs i2) with
    | none => none
    | some (i3, v) => some (i3, (op, v))

/-- The combine function of the legacy `expr` fold (`mod.rs` lines
82–89).  Note the source: `"!=" => Expr::Eq(..)` under a
`// TODO implement neq` comment — both operators build `Eq`. -/
def legacy_combine (acc : Expr) (p : List Char × Expr) : Expr :=
  match p.1 with
  | ['=', '='] => Expr.Eq acc p.2
  | ['!', '='] => Expr.Eq acc p.2
  | _ => acc

/-- The legacy `expr` (`mod.rs` lines 67–91): a single-tier
left-associative fold of `==` / `!=` over `expr_simple`. -/
def expr_body (rec : Parser Expr) : Parser Expr := fun i =>
  match expr_simple_body rec i with
  | none => none
  | some (i1, seed) =>
    fold_many0_once (legacy_step rec) seed legacy_combine i1

/-- The fueled recursive knot of the legacy expression grammar. -/
def exprF : Nat → Parser Expr
  | 0 => fun _ => none
  | f + 1 => expr_body (exprF f)

/-- The legacy expression entry point used by the statement
grammar. -/
def expr : Parser Expr := fun s => expr_body (exprF s.length) s

/-- `expr_simple` as an entry point. -/
def expr_simple : Parser Expr := fun s => expr_simple_body (exprF s.length) s

/-- `block_body` (`mod.rs` lines 124–146) over an abstract statement
parser `recStmt`: an optional "one statement, then any number of
(whitespace, statement)" sequence; an absent body yields the empty
block, a present body lists the statements in source order (the first
statement is inserted at the front of the mapped tail, exactly as the
source's `statements.insert(0, s1)`). -/
def block_body_core (recStmt : Parser Stmt) : Parser Block := fun s =>
  match recStmt s with
  | none => some (s, Block.mk [])
  | some (r1, s1) =>
    match many0P (fun i =>
        match recStmt (dropWs i) with
        | none => none
        | some (r, t) => some (r, t)) r1 with
    | none => none
    | some (r2, s2) => some (r2, Block.mk (s1 :: s2))

/-- `block` (`mod.rs` lines 148–159) over an abstract statement
parser: `{`, whitespace, block body, whitespace, `}`. -/
def block_core (recStmt : Parser Stmt) : Parser Block := fun s =>
  match tagP "\x7b".data s with
  | none => none
  | some (r1, _) =>
    match block_body_core recStmt (dropWs r1) with
    | none => none
    | some (r2, b) =>
      match tagP "\x7d".data (dropWs r2) with
      | none => none
      | some (r3, _) => some (r3, b)

/-- `if_stmt` (`mod.rs` lines 93–108) over an abstract statement
parser: `if`, whitespace, `(`, whitespace, the legacy expression,
whitespace, `)`, whitespace, a block. -/
def if_stmt_core (recStmt : Parser Stmt) : Parser Stmt := fun s =>
  match tagP "if".data s with
  | none => none
  | some (r1, _) =>
    match tagP "(".data (dropWs r1) with
    | none => none
    | some (r2, _) =>
      match expr (dropWs r2) with
      | none => none
      | some (r3, cond) =>
        match tagP ")".data (dropWs r3) with
        | none => none
        | some (r4, _) =>
          match block_core recStmt (dropWs r4) with
          | none => none
          | some (r5, body) => some (r5, Stmt.If cond body)

/-- `stmt` (`mod.rs` lines 111–122) over an abstract statement parser
for the blocks it contains: an `if` statement, an expression followed
by `;`, or a bare block — in that order, first match wins. -/
def stmt_core (recStmt : Parser Stmt) : Parser Stmt :=
  orElseP (if_stmt_core recStmt)
    (orElseP
      (fun s =>
        match expr s with
        | none => none
        | some (r1, e) =>
          match tagP ";".data r1 with
          | none => none
          | some (r2, _) => some (r2, Stmt.Expr e))
      (pmap (block_core recStmt) Stmt.Block))

/-- The fueled recursive knot of the statement grammar: statements
nested inside a block spend one unit of fuel, and every block
consumes its opening `{` first. -/
def stmtF : Nat → Parser Stmt
  | 0 => fun _ => none
  | f + 1 => stmt_core (stmtF f)

/-- The `stmt` entry point. -/
def stmt : Parser Stmt := fun s => stmt_core (stmtF s.length) s

/-- The `block_body` entry point. -/
def block_body : Parser Block := fun s =>
  block_body_core (stmtF s.length) s

/-- The `block` entry point. -/
def block : Parser Block := fun s => block_core (stmtF s.length) s

/-- The `if_stmt` entry point. -/
def if_stmt : Parser Stmt := fun s => if_stmt_core (stmtF s.length) s

/-- `global_block` (`mod.rs` lines 161–166): optional leading
whitespace, a block body, optional trailing whitespace. -/
def global_block : Parser Block := fun s =>
  match block_body_core (stmtF s.length) (dropWs s) with
  | none => none
  | some (r, b) => some (dropWs r, b)

end parsing

/-!  ## Diagnostics (`error.rs`) -/

/-- nom's `ErrorKind` (external enum; only its presence matters —
`CustomError::from_error_kind` ignores it). -/
inductive ErrorKind : Type
  | Tag
  | Alt
  | Many0
  | Eof
deriving DecidableEq

/-- `CustomError` (`error.rs` lines 14–22): the remaining unconsumed
input at the point of failure plus the ordered list of expected
descriptions. -/
structure CustomError : Type where
  input : List Char
  expected : List String
deriving DecidableEq

/-- `CustomError::from_error_kind` (`error.rs` lines 25–29): any
plain parser error kind yields an empty expected list. -/
def CustomError.from_error_kind (input : List Char) (_ : ErrorKind) :
    CustomError :=
  { input := input, expected := [] }

/-- `CustomError::from_char` (`error.rs` lines 31–33). -/
def CustomError.from_char (input : List Char) (ch : Char) : CustomError :=
  { input := input, expected := [String.mk [ch]] }

/-- `CustomError::or` (`error.rs` lines 35–38): in nom's `alt`, the
receiver `self` is the earlier (first-tried) failure and `other` the
most recent one; the source keeps `other` and moves `self.expected`
onto the **end** of `other.expected`
(`other.expected.append(&mut self.expected); other`). -/
def CustomError.or (self other : CustomError) : CustomError :=
  { input := other.input, expected := other.expected ++ self.expected }

/-- `CustomError::append` (`error.rs` line 40). -/
def CustomError.append (_ : List Char) (_ : ErrorKind)
    (other : CustomError) : CustomError := other

/-- Trim trailing whitespace from a line (Rust `str::trim_end`,
restricted to the ASCII whitespace that can occur here). -/
def trimEnd (l : List Char) : List Char :=
  (l.reverse.dropWhile isWsChar).reverse

/-- Rust's `Iterator::position`: the index of the first element
satisfying `p`, if any. -/
def positionOf (p : Char → Bool) : List Char → Option Nat
  | [] => none
  | c :: r => if p c then some 0 else (positionOf p r).map (· + 1)

/-- The four-line diagnostic message format of `convert_custom_error`
(`error.rs` lines 92–104): header with line number, the line text,
a caret right-aligned to the column, and the first expected
description. -/
def diagMsg (line_number : Nat) (line : List Char) (column_number : Nat)
    (expected : String) : String :=
  "err: at line " ++ toString line_number ++ ":\n"
    ++ String.mk line ++ "\n"
    ++ String.mk (List.replicate (column_number - 1) ' ') ++ "^\n"
    ++ "expected '" ++ expected ++ "'\n\n"

/-- The failure byte offset (`error.rs` line 56): the pointer
distance between the full input and the remaining-input slice, which
for a trailing slice is the length difference. -/
def cce_offset (input erri : List Char) : Nat := input.length - erri.length

/-- The `line_number` local of `convert_custom_error` (`error.rs`
line 70): one plus the number of newline bytes in the first `offset`
bytes of the input. -/
def cce_line_number (input : List Char) (offset : Nat) : Nat :=
  ((input.take offset).filter (fun b => b == '\n')).length + 1

/-- The `line_begin` local of `convert_custom_error` (`error.rs`
lines 74–79): scan the reversed prefix for the first newline; at
backward position `pos` the line begins at `offset - pos`, and with
no newline at 0. -/
def cce_line_begin (input : List Char) (offset : Nat) : Nat :=
  match positionOf (fun b => b == '\n') (input.take offset).reverse with
  | some pos => offset - pos
  | none => 0

/-- The `line` local of `convert_custom_error` (`error.rs` lines
82–86): the text from `line_begin` to the next newline (or the end of
input), right-trimmed. -/
def cce_line (input : List Char) (offset : Nat) : List Char :=
  trimEnd ((input.drop (cce_line_begin input offset)).takeWhile (fun b => b != '\n'))

/-- The `column_number` local of `convert_custom_error` (`error.rs`
line 89): the offset of the failure slice within the extracted line,
plus one (pointer distance from the line start). -/
def cce_column (input : List Char) (offset : Nat) : Nat :=
  offset - cce_line_begin input offset + 1

/-- `convert_custom_error` (`error.rs` lines 44–108), faithfully:
the first expected description is taken with `.get(0).unwrap()` —
modelled as `none` (the panic) when the list is empty; an empty input
produces an empty message body; otherwise the four-line message is
rendered from the locals above. -/
def convert_custom_error (input : List Char) (err : CustomError) :
    Option String :=
  match err.expected with
  | [] => none
  | expected :: _ =>
    let offset := cce_offset input err.input
    if input.isEmpty then some ""
    else
      some (diagMsg (cce_line_number input offset) (cce_line input offset)
        (cce_column input offset) expected)

/-!  Spec-side formulation of the diagnostic rendering (§4.2), stated
with the spec's own words rather than the source's reverse-scan
arithmetic, for comparison with `convert_custom_error`. -/

/-- Spec §4.2: "count newline bytes strictly before the offset to get
a 1-indexed line number". -/
def specLineNumber (input : List Char) (offset : Nat) : Nat :=
  ((input.take offset).count '\n') + 1

/-- Spec §4.2: "find the start of that line by scanning backward from
the offset for the nearest preceding newline (or the start of input
if none)" — formulated as: the offset minus the length of the run of
non-newline characters immediately before the offset. -/
def specLineStart (input : List Char) (offset : Nat) : Nat :=
  offset - ((input.take offset).reverse.takeWhile (fun b => b != '\n')).length

/-- Spec §4.2: "extract the full line of text from that start to the
next newline (or end of input), trimming trailing whitespace". -/
def specLine (input : List Char) (offset : Nat) : List Char :=
  trimEnd ((input.drop (specLineStart input offset)).takeWhile (fun b => b != '\n'))

/-- Spec §4.2: "compute the 1-indexed column as the offset of the
failure slice within that extracted line, plus one". -/
def specColumn (input : List Char) (offset : Nat) : Nat :=
  offset - specLineStart input offset + 1

/-- The four-line message of spec §4.2, assembled from the spec-side
line/column values. -/
def specRender (input : List Char) (offset : Nat) (expected : String) :
    String :=
  diagMsg (specLineNumber input offset) (specLine input offset)
    (specColumn input offset) expected

/-!  ## Shared helper lemmas -/

/-- The backward-scan arithmetic of `positionOf` measured against the
run of characters not satisfying `p` at the head of the list. -/
theorem positionOf_takeWhile_not (p : Char → Bool) (l : List Char) :
    (match positionOf p l with
      | some n => n
      | none => l.length) =
    (l.takeWhile (fun b => !(p b))).length := by
  induction l with
  | nil => rfl
  | cons c r ih =>
    by_cases h : p c = true
    · simp [positionOf, List.takeWhile_cons, h]
    · cases hp : positionOf p r with
      | none =>
        simp only [hp] at ih
        simp only [Bool.not_eq_true] at h
        simp [positionOf, List.takeWhile_cons, h, hp, ← ih]
      | some n =>
        simp only [hp] at ih
        simp only [Bool.not_eq_true] at h
        simp [positionOf, List.takeWhile_cons, h, hp, ih]

/-- The source's `line_begin` (backward `position` plus arithmetic)
equals the spec's formulation (offset minus the run of preceding
non-newline characters). -/
theorem cce_line_begin_eq_spec (input : List Char) (offset : Nat)
    (hoff : offset ≤ input.length) :
    cce_line_begin input offset = specLineStart input offset := by
  have hlen : (input.take offset).reverse.length = offset := by
    simp [List.length_reverse, List.length_take, Nat.min_eq_left hoff]
  have hmain := positionOf_takeWhile_not (fun b => b == '\n')
    (input.take offset).reverse
  have hfun : (fun b : Char => !(b == '\n')) = (fun b : Char => b != '\n') := rfl
  rw [hfun] at hmain
  unfold cce_line_begin specLineStart
  cases hp : positionOf (fun b => b == '\n') (input.take offset).reverse with
  | none =>
    simp only [hp] at hmain ⊢
    rw [← hmain, hlen, Nat.sub_self]
  | some n =>
    simp only [hp] at hmain ⊢
    rw [← hmain]

/-- The source's `line` equals the spec's extracted line. -/
theorem cce_line_eq_spec (input : List Char) (offset : Nat)
    (hoff : offset ≤ input.length) :
    cce_line input offset = specLine input offset := by
  unfold cce_line specLine
  rw [cce_line_begin_eq_spec _ _ hoff]

/-- The source's `column_number` equals the spec's column. -/
theorem cce_column_eq_spec (input : List Char) (offset : Nat)
    (hoff : offset ≤ input.length) :
    cce_column input offset = specColumn input offset := by
  unfold cce_column specColumn
  rw [cce_line_begin_eq_spec _ _ hoff]

/-- The source's `line_number` (filter-and-count over the prefix)
equals the spec's newline count. -/
theorem cce_line_number_eq_spec (input : List Char) (offset : Nat) :
    cce_line_number input offset = specLineNumber input offset := by
  unfold cce_line_number specLineNumber
  rw [List.count, List.countP_eq_length_filter]

/-!  ## C9 -/

/-- C9: for every event code `c`, the `InputEvGroup` built for `c`
has up, down and repeat templates all carrying event code `c`,
differing only in their value field (0 up, 1 down, 2 repeat), all
three timestamps equal to the zero sentinel, and `to_key` returns the
key wrapping `c`. -/
theorem C9_input_ev_group (c : Nat) :
    (InputEvGroup.new c).up.event_code = c ∧
    (InputEvGroup.new c).down.event_code = c ∧
    (InputEvGroup.new c).repeat_.event_code = c ∧
    (InputEvGroup.new c).up.value = 0 ∧
    (InputEvGroup.new c).down.value = 1 ∧
    (InputEvGroup.new c).repeat_.value = 2 ∧
    (InputEvGroup.new c).up.time = INPUT_EV_DUMMY_TIME ∧
    (InputEvGroup.new c).down.time = INPUT_EV_DUMMY_TIME ∧
    (InputEvGroup.new c).repeat_.time = INPUT_EV_DUMMY_TIME ∧
    (InputEvGroup.new c).down = { (InputEvGroup.new c).up with value := 1 } ∧
    (InputEvGroup.new c).repeat_ = { (InputEvGroup.new c).up with value := 2 } ∧
    (InputEvGroup.new c).to_key = make_key c :=
  ⟨rfl, rfl, rfl, rfl, rfl, rfl, rfl, rfl, rfl, rfl, rfl, rfl⟩

/-!  ## C1 -/

/-- C1 counterexample: merging two concrete failures with `or` keeps
the second's position but puts the second's expected description
*first* — the result is `["b", "a"]`, not the claimed attempt-order
list `["a", "b"]`. -/
theorem C1_counterexample :
    CustomError.or { input := "x".data, expected := ["a"] }
        { input := "y".data, expected := ["b"] }
      = { input := "y".data, expected := ["b", "a"] } ∧
    (["b", "a"] : List String) ≠ ["a", "b"] :=
  ⟨rfl, by decide⟩

/-- C1 amended: when two alternative failures are merged with `or`
(`self` the first-tried, `other` the second, as nom's `alt` calls
it), the result keeps the second alternative's failure position and
*appends* the first alternative's expected descriptions after the
second's — so the accumulated list is in reverse attempt order, the
most recently tried alternative's descriptions first. -/
theorem C1_or_merge (i1 i2 : List Char) (e1 e2 : List String) :
    CustomError.or { input := i1, expected := e1 }
        { input := i2, expected := e2 }
      = { input := i2, expected := e2 ++ e1 } := rfl

/-!  ## C10 -/

/-- C10: `convert_custom_error` is total only when the expected list
is nonempty — on any error with an empty expected list (the exact
shape `CustomError::from_error_kind` produces for every plain error
kind) it hits the initial `expected.get(0).unwrap()` panic (modelled
as `none`), regardless of the input. -/
theorem C10_convert_panics_on_empty_expected (input : List Char)
    (err : CustomError) (h : err.expected = []) :
    convert_custom_error input err = none ∧
    ∀ (s : List Char) (k : ErrorKind),
      convert_custom_error input (CustomError.from_error_kind s k) = none := by
  constructor
  · cases err with
    | mk i e =>
      simp only at h
      subst h
      rfl
  · intro s k
    rfl

/-- C10 witness: the panic fires at a concrete error with empty
expected list even though the input `"abc"` is nonempty. -/
theorem C10_witness :
    convert_custom_error "abc".data { input := "bc".data, expected := [] } = none ∧
    "abc".data ≠ [] :=
  ⟨(C10_convert_panics_on_empty_expected "abc".data
      { input := "bc".data, expected := [] } rfl).1,
   by decide⟩

/-!  ## C4 -/

/-- C4: for any nonempty input and any failure value with at least
one expected description, the renderer produces exactly the message
assembled from the spec's formulas — the line number is 1 plus the
count of newline bytes strictly before the failure offset, the line
is the trailing-whitespace-trimmed text around the offset, and the
column is 1 plus the offset of the failure slice within that line
(instantiated at `"abc\ndef"` with the failure at `d`, this reports
line 2, line text `"def"`, caret column 1). -/
theorem C4_convert_custom_error_renders_spec (input erri : List Char)
    (e : String) (es : List String) (h : input ≠ []) :
    convert_custom_error input { input := erri, expected := e :: es }
      = some (specRender input (cce_offset input erri) e) := by
  have hne : input.isEmpty = false := by
    cases input with
    | nil => exact absurd rfl h
    | cons a l => rfl
  have hoff : cce_offset input erri ≤ input.length := Nat.sub_le _ _
  unfold convert_custom_error specRender
  simp only [hne, Bool.false_eq_true, if_false,
    cce_line_number_eq_spec, cce_line_eq_spec _ _ hoff,
    cce_column_eq_spec _ _ hoff]

/-- C4 witness: the concrete instance of the claim — input
`"abc\ndef"`, failure slice `"def"` (offset 4): line 2, line text
`"def"`, caret column 1 (no padding before the caret). -/
theorem C4_witness :
    convert_custom_error "abc\ndef".data
        { input := "def".data, expected := ["x"] }
      = some "err: at line 2:\ndef\n^\nexpected 'x'\n\n" := by
  rw [C4_convert_custom_error_renders_spec "abc\ndef".data "def".data "x" []
    (by decide)]
  rfl

/-!  ## Helper lemmas about `tagP` and `fold_many0_once` -/

/-- A tag always matches itself at the head of the input. -/
theorem tagP_append (t r : List Char) : tagP t (t ++ r) = some (r, t) := by
  unfold tagP
  rw [if_pos, List.drop_left]
  rw [List.isPrefixOf_iff_prefix]
  exact List.prefix_append t r

/-- A tag fails when its first character differs from the input's. -/
theorem tagP_head_ne (a b : Char) (t r : List Char) (h : ¬ a = b) :
    tagP (a :: t) (b :: r) = none := by
  have hb : (a == b) = false := beq_eq_false_iff_ne.mpr h
  simp [tagP, List.isPrefixOf, hb]

/-- A one-character tag matches itself (cons form). -/
theorem tagP_cons1_self (a : Char) (r : List Char) :
    tagP [a] (a :: r) = some (r, [a]) := tagP_append [a] r

/-- A two-character tag matches itself (cons form). -/
theorem tagP_cons2_self (a b : Char) (r : List Char) :
    tagP [a, b] (a :: b :: r) = some (r, [a, b]) := tagP_append [a, b] r

/-- When the repeated step fails immediately, the fold returns the
seed, whatever fuel remains. -/
theorem foldLoop_step_none {α β : Type} (step : Parser β) (g : α → β → α)
    (acc : α) (s : List Char) (h : step s = none) :
    ∀ fuel, foldLoop step g fuel acc s = some (s, acc)
  | 0 => rfl
  | fuel + 1 => by
    show (match step s with
      | none => some (s, acc)
      | some (s1, b) => foldLoop step g fuel (g acc b) s1) = some (s, acc)
    rw [h]

/-- One successful step of the fold combines the parsed value into the
accumulator and continues on the remaining input. -/
theorem foldLoop_step_some {α β : Type} (step : Parser β) (g : α → β → α)
    (acc : α) (s s1 : List Char) (b : β) (f : Nat)
    (h : step s = some (s1, b)) :
    foldLoop step g (f + 1) acc s = foldLoop step g f (g acc b) s1 := by
  show (match step s with
    | none => some (s, acc)
    | some (s1, b) => foldLoop step g f (g acc b) s1)
      = foldLoop step g f (g acc b) s1
  rw [h]

/-!  ## The six top-tier operators as an enumeration -/

/-- The six operators of the relational/equality/logical tier. -/
inductive TierOp : Type
  | eq
  | neq
  | and
  | or
  | lt
  | gt
deriving DecidableEq

/-- The source token of each tier operator. -/
def tierTok : TierOp → List Char
  | .eq => ['=', '=']
  | .neq => ['!', '=']
  | .and => ['&', '&']
  | .or => ['|', '|']
  | .lt => ['<']
  | .gt => ['>']

/-- The AST node each tier operator builds (`expression.rs` lines
85–90): `==` → `Eq`, `!=` → `Neq`, `&&` → `And`, `||` → `Or`,
`>` → `GT`, `<` → `LT`. -/
def tierNode : TierOp → Expr → Expr → Expr
  | .eq => Expr.Eq
  | .neq => Expr.Neq
  | .and => Expr.And
  | .or => Expr.Or
  | .lt => Expr.LT
  | .gt => Expr.GT

/-- The tier operator alternation recognises each operator token at
the head of the remaining input, consuming exactly it. -/
theorem tier_tag_tok (op : TierOp) (r : List Char) :
    expression.tier_tag (tierTok op ++ r) = some (r, tierTok op) := by
  cases op with
  | eq =>
    have hs : tagP ['=', '='] ('=' :: '=' :: r) = some (r, ['=', '=']) :=
      tagP_cons2_self '=' '=' r
    simp [expression.tier_tag, tierTok, orElseP, hs]
  | neq =>
    have h0 : tagP ['=', '='] ('!' :: '=' :: r) = none :=
      tagP_head_ne '=' '!' ['='] ('=' :: r) (by decide)
    have hs : tagP ['!', '='] ('!' :: '=' :: r) = some (r, ['!', '=']) :=
      tagP_cons2_self '!' '=' r
    simp [expression.tier_tag, tierTok, orElseP, h0, hs]
  | and =>
    have h0 : tagP ['=', '='] ('&' :: '&' :: r) = none :=
      tagP_head_ne '=' '&' ['='] ('&' :: r) (by decide)
    have h1 : tagP ['!', '='] ('&' :: '&' :: r) = none :=
      tagP_head_ne '!' '&' ['='] ('&' :: r) (by decide)
    have hs : tagP ['&', '&'] ('&' :: '&' :: r) = some (r, ['&', '&']) :=
      tagP_cons2_self '&' '&' r
    simp [expression.tier_tag, tierTok, orElseP, h0, h1, hs]
  | or =>
    have h0 : tagP ['=', '='] ('|' :: '|' :: r) = none :=
      tagP_head_ne '=' '|' ['='] ('|' :: r) (by decide)
    have h1 : tagP ['!', '='] ('|' :: '|' :: r) = none :=
      tagP_head_ne '!' '|' ['='] ('|' :: r) (by decide)
    have h2 : tagP ['&', '&'] ('|' :: '|' :: r) = none :=
      tagP_head_ne '&' '|' ['&'] ('|' :: r) (by decide)
    have hs : tagP ['|', '|'] ('|' :: '|' :: r) = some (r, ['|', '|']) :=
      tagP_cons2_self '|' '|' r
    simp [expression.tier_tag, tierTok, orElseP, h0, h1, h2, hs]
  | lt =>
    have h0 : tagP ['=', '='] ('<' :: r) = none :=
      tagP_head_ne '=' '<' ['='] r (by decide)
    have h1 : tagP ['!', '='] ('<' :: r) = none :=
      tagP_head_ne '!' '<' ['='] r (by decide)
    have h2 : tagP ['&', '&'] ('<' :: r) = none :=
      tagP_head_ne '&' '<' ['&'] r (by decide)
    have h3 : tagP ['|', '|'] ('<' :: r) = none :=
      tagP_head_ne '|' '<' ['|'] r (by decide)
    have hs : tagP ['<'] ('<' :: r) = some (r, ['<']) :=
      tagP_cons1_self '<' r
    simp [expression.tier_tag, tierTok, orElseP, h0, h1, h2, h3, hs]
  | gt =>
    have h0 : tagP ['=', '='] ('>' :: r) = none :=
      tagP_head_ne '=' '>' ['='] r (by decide)
    have h1 : tagP ['!', '='] ('>' :: r) = none :=
      tagP_head_ne '!' '>' ['='] r (by decide)
    have h2 : tagP ['&', '&'] ('>' :: r) = none :=
      tagP_head_ne '&' '>' ['&'] r (by decide)
    have h3 : tagP ['|', '|'] ('>' :: r) = none :=
      tagP_head_ne '|' '>' ['|'] r (by decide)
    have h4 : tagP ['<'] ('>' :: r) = none :=
      tagP_head_ne '<' '>' [] r (by decide)
    have hs : tagP ['>'] ('>' :: r) = some (r, ['>']) :=
      tagP_cons1_self '>' r
    simp [expression.tier_tag, tierTok, orElseP, h0, h1, h2, h3, h4, hs]

/-- The combine function of the top tier maps each operator token to
its corresponding node. -/
theorem tier_combine_tok (op : TierOp) (acc v : Expr) :
    expression.tier_combine acc (tierTok op, v) = tierNode op acc v := by
  cases op <;> rfl

/-- The top tier's repeated step fails on empty input. -/
theorem tier_step_nil (rec : Parser Expr) :
    expression.tier_step rec [] = none := rfl

/-!  ## C2 -/

/-- C2: at the expression entry point (the top tier of the five-level
grammar), whenever the additive level parses the left operand and the
remaining input carries one of the six tier operators followed by a
right operand that the additive level consumes entirely, the result
is exactly the corresponding comparison/logical node applied to the
two operands — `==` gives `Eq`, `!=` gives `Neq`, `&&` gives `And`,
`||` gives `Or`, `<` gives `LT`, `>` gives `GT`; in particular
`"a != b"` produces `Neq(a, b)`. -/
theorem C2_top_tier_nodes (rec : Parser Expr) (op : TierOp)
    (s r1 r2 : List Char) (ea eb : Expr)
    (h1 : expression.expr_1_body rec s = some (r1, ea))
    (h2 : dropWs r1 = tierTok op ++ r2)
    (h3 : expression.expr_1_body rec (dropWs r2) = some ([], eb)) :
    expression.expr_body rec s = some ([], tierNode op ea eb) := by
  have hstep : expression.tier_step rec r1 = some ([], (tierTok op, eb)) := by
    unfold expression.tier_step
    rw [h2, tier_tag_tok]
    simp [h3]
  unfold expression.expr_body
  rw [h1]
  show fold_many0_once (expression.tier_step rec) ea expression.tier_combine r1
    = some ([], tierNode op ea eb)
  unfold fold_many0_once
  rw [foldLoop_step_some _ _ _ _ _ _ _ hstep, tier_combine_tok,
    foldLoop_step_none _ _ _ _ (tier_step_nil rec)]

/-- C2 witness: `"a != b"` at the expression entry point yields
`Neq(Variable "a", Variable "b")`. -/
theorem C2_witness :
    expression.expr "a != b".data
      = some ([], Expr.Neq (Expr.Variable "a") (Expr.Variable "b")) := by
  exact C2_top_tier_nodes (expression.exprF 6) TierOp.neq
    "a != b".data "!= b".data " b".data
    (Expr.Variable "a") (Expr.Variable "b") rfl rfl rfl

/-!  ## C5 -/

/-- The four arithmetic operators. -/
inductive ArithOp : Type
  | add
  | sub
  | mul
  | div
deriving DecidableEq

/-- The source token of each arithmetic operator. -/
def arithTok : ArithOp → Char
  | .add => '+'
  | .sub => '-'
  | .mul => '*'
  | .div => '/'

/-- The AST node each arithmetic operator builds. -/
def arithNode : ArithOp → Expr → Expr → Expr
  | .add => Expr.Add
  | .sub => Expr.Sub
  | .mul => Expr.Mul
  | .div => Expr.Div

/-- Does the operator belong to the multiplicative tier? -/
def arithIsMul : ArithOp → Bool
  | .add => false
  | .sub => false
  | .mul => true
  | .div => true

/-- C5: for every pair of operators `p`, `q` from `+ - * /`, parsing
`"2 p 3 q 4"` produces the tree dictated by conventional precedence
and left-associativity: when `p` is additive and `q` multiplicative,
the multiplicative pair binds tighter (`"2 + 3 * 4"` gives
`Add(2, Mul(3, 4))`); in every other combination the fold is
left-associative (`"2 - 3 - 4"` gives `Sub(Sub(2, 3), 4)`). -/
theorem C5_arith_precedence (p q : ArithOp) :
    expression.expr ['2', ' ', arithTok p, ' ', '3', ' ', arithTok q, ' ', '4']
      = some ([],
        if arithIsMul p = false ∧ arithIsMul q = true then
          arithNode p (Expr.Value (ValueType.Number 2))
            (arithNode q (Expr.Value (ValueType.Number 3))
              (Expr.Value (ValueType.Number 4)))
        else
          arithNode q
            (arithNode p (Expr.Value (ValueType.Number 2))
              (Expr.Value (ValueType.Number 3)))
            (Expr.Value (ValueType.Number 4))) := by
  cases p <;> cases q <;> rfl

/-!  ## C6 -/

/-- C6: all six operators `== != && || < >` sit in one shared tier
associating strictly left-to-right in source order: for every pair of
tier operators `o1`, `o2`, parsing `"a o1 b o2 c"` yields
`node(o2, node(o1, a, b), c)` — in particular `"a == b == c"` gives
`Eq(Eq(a, b), c)` and `"a < b == c"` gives `Eq(LT(a, b), c)`, and no
tier operator ever binds tighter than another. -/
theorem C6_tier_left_assoc (o1 o2 : TierOp) :
    expression.expr
        (('a' :: ' ' :: tierTok o1)
          ++ ((' ' :: 'b' :: ' ' :: tierTok o2) ++ [' ', 'c']))
      = some ([], tierNode o2
          (tierNode o1 (Expr.Variable "a") (Expr.Variable "b"))
          (Expr.Variable "c")) := by
  cases o1 <;> cases o2 <;> rfl

/-!  ## C7 -/

/-- Alternation over a list with a trivial tail is the last parser. -/
theorem orElseP_none_right {α : Type} (p : Parser α) (s : List Char) :
    orElseP p (fun _ => none) s = p s := by
  unfold orElseP
  cases p s <;> rfl

/-- Alternation only depends on the second parser's value at the
input position. -/
theorem orElseP_congr_right {α : Type} (p q q' : Parser α)
    (s : List Char) (h : q s = q' s) :
    orElseP p q s = orElseP p q' s := by
  unfold orElseP
  rw [h]

/-- A nine-alternative `firstMatch` is the right-nested binary
alternation of its members. -/
theorem firstMatch_nine {α : Type}
    (p1 p2 p3 p4 p5 p6 p7 p8 p9 : Parser α) (s : List Char) :
    firstMatch [p1, p2, p3, p4, p5, p6, p7, p8, p9] s =
      orElseP p1 (orElseP p2 (orElseP p3 (orElseP p4 (orElseP p5
        (orElseP p6 (orElseP p7 (orElseP p8 p9))))))) s := by
  simp only [firstMatch]
  refine orElseP_congr_right _ _ _ _ ?_
  refine orElseP_congr_right _ _ _ _ ?_
  refine orElseP_congr_right _ _ _ _ ?_
  refine orElseP_congr_right _ _ _ _ ?_
  refine orElseP_congr_right _ _ _ _ ?_
  refine orElseP_congr_right _ _ _ _ ?_
  refine orElseP_congr_right _ _ _ _ ?_
  refine orElseP_congr_right _ _ _ _ ?_
  exact orElseP_none_right p9 _

/-- C7: the atom level of the expression grammar is exactly the
ordered, first-match-wins alternation of: parenthesized
sub-expression, boolean literal, string literal, numeric literal,
variable declaration, variable assignment, function call, inline
key-mapping literal, bare variable reference — followed by optional
trailing whitespace; the concrete conjuncts pin the order down
behaviorally (`true` is a boolean literal, not a variable; `let x = 1`
a declaration; `x = 1` an assignment; `f(1)` a call; `a::b` an inline
mapping; `abc` a bare variable; trailing whitespace after an atom is
consumed). -/
theorem C7_atom_order :
    (∀ (rec : Parser Expr) (s : List Char),
      expression.expr_4_body rec s =
        match firstMatch [expression.paren_expr rec, boolean, string_lit,
            number, variable_initialization rec, variable_assignment rec,
            function_call rec, key_mapping_inline, variableP] s with
        | none => none
        | some (r, v) => some (dropWs r, v)) ∧
    expression.expr "true".data = some ([], Expr.Value (ValueType.Bool true)) ∧
    expression.expr "let x = 1".data
      = some ([], Expr.VariableInit "x" (Expr.Value (ValueType.Number 1))) ∧
    expression.expr "x = 1".data
      = some ([], Expr.VariableAssign "x" (Expr.Value (ValueType.Number 1))) ∧
    expression.expr "f(1)".data
      = some ([], Expr.FunctionCall "f" [Expr.Value (ValueType.Number 1)]) ∧
    expression.expr "a::b".data
      = some ([], Expr.KeyMappingInline
          { key := make_key 97, modifiers := KeyModifierFlags.new }
          { key := make_key 98, modifiers := KeyModifierFlags.new }) ∧
    expression.expr "abc".data = some ([], Expr.Variable "abc") ∧
    expression.expr_4 "true   ".data
      = some ([], Expr.Value (ValueType.Bool true)) := by
  refine ⟨?_, rfl, rfl, rfl, rfl, rfl, rfl, rfl⟩
  intro rec s
  rw [firstMatch_nine]
  rfl

/-!  ## C3 -/

/-- C3 counterexample: the statement grammar's if-condition parser
rejects the numeric literal `1`, which the five-level grammar
accepts — so the expression parser invoked by the statement grammar
is not the five-level precedence-climbing grammar. -/
theorem C3_counterexample :
    parsing.if_stmt "if(1){}".data = none ∧
    expression.expr "1".data = some ([], Expr.Value (ValueType.Number 1)) :=
  ⟨rfl, rfl⟩

/-- C3 amended: the expression parser that the statement grammar
invokes is `mod.rs`'s own single-tier parser (a fold of `==` / `!=`
over `expr_simple`), not the five-level grammar: inside an `if (...)`
condition, numeric literals, parenthesized sub-expressions and the
operators `&&`, `||`, `<`, `>`, `*`, `/`, `+`, `-` are all rejected
(each of which the five-level grammar accepts), boolean conditions
are accepted, and `!=` yields an `Eq` node where the five-level
grammar yields `Neq`. -/
theorem C3_stmt_grammar_uses_legacy_expr :
    parsing.if_stmt "if(true){}".data
      = some ([], Stmt.If (Expr.Value (ValueType.Bool true)) (Block.mk [])) ∧
    (parsing.if_stmt "if(1){}".data = none ∧
      expression.expr "1".data = some ([], Expr.Value (ValueType.Number 1))) ∧
    (parsing.if_stmt "if((true)){}".data = none ∧
      expression.expr "(true)".data
        = some ([], Expr.Value (ValueType.Bool true))) ∧
    (parsing.if_stmt "if(true && true){}".data = none ∧
      expression.expr "true && true".data
        = some ([], Expr.And (Expr.Value (ValueType.Bool true))
            (Expr.Value (ValueType.Bool true)))) ∧
    (parsing.if_stmt "if(true || true){}".data = none ∧
      expression.expr "true || true".data
        = some ([], Expr.Or (Expr.Value (ValueType.Bool true))
            (Expr.Value (ValueType.Bool true)))) ∧
    (parsing.if_stmt "if(true < true){}".data = none ∧
      expression.expr "true < true".data
        = some ([], Expr.LT (Expr.Value (ValueType.Bool true))
            (Expr.Value (ValueType.Bool true)))) ∧
    (parsing.if_stmt "if(true > true){}".data = none ∧
      expression.expr "true > true".data
        = some ([], Expr.GT (Expr.Value (ValueType.Bool true))
            (Expr.Value (ValueType.Bool true)))) ∧
    (parsing.if_stmt "if(true * true){}".data = none ∧
      expression.expr "true * true".data
        = some ([], Expr.Mul (Expr.Value (ValueType.Bool true))
            (Expr.Value (ValueType.Bool true)))) ∧
    (parsing.if_stmt "if(true / true){}".data = none ∧
      expression.expr "true / true".data
        = some ([], Expr.Div (Expr.Value (ValueType.Bool true))
            (Expr.Value (ValueType.Bool true)))) ∧
    (parsing.if_stmt "if(true + true){}".data = none ∧
      expression.expr "true + true".data
        = some ([], Expr.Add (Expr.Value (ValueType.Bool true))
            (Expr.Value (ValueType.Bool true)))) ∧
    (parsing.if_stmt "if(true - true){}".data = none ∧
      expression.expr "true - true".data
        = some ([], Expr.Sub (Expr.Value (ValueType.Bool true))
            (Expr.Value (ValueType.Bool true)))) ∧
    (parsing.expr "a != b".data
        = some ([], Expr.Eq (Expr.Variable "a") (Expr.Variable "b")) ∧
      expression.expr "a != b".data
        = some ([], Expr.Neq (Expr.Variable "a") (Expr.Variable "b"))) :=
  ⟨rfl, ⟨rfl, rfl⟩, ⟨rfl, rfl⟩, ⟨rfl, rfl⟩, ⟨rfl, rfl⟩, ⟨rfl, rfl⟩,
   ⟨rfl, rfl⟩, ⟨rfl, rfl⟩, ⟨rfl, rfl⟩, ⟨rfl, rfl⟩, ⟨rfl, rfl⟩, ⟨rfl, rfl⟩⟩

/-!  ## C8 -/

/-- The chain of statements that `block_body`'s repetition consumes
after the first one: each link parses optional whitespace and one
statement (consuming at least one character), ending where the
statement parser no longer matches. -/
inductive StmtChainWs (recStmt : Parser Stmt) :
    List Char → List Stmt → List Char → Prop
  | done (s : List Char) (h : recStmt (dropWs s) = none) :
      StmtChainWs recStmt s [] s
  | step (s r : List Char) (t : Stmt) (ts : List Stmt) (rfin : List Char)
      (h : recStmt (dropWs s) = some (r, t))
      (hlen : r.length < s.length)
      (hrest : StmtChainWs recStmt r ts rfin) :
      StmtChainWs recStmt s (t :: ts) rfin

/-- A statement chain never grows the input. -/
theorem StmtChainWs.length_le {recStmt : Parser Stmt}
    {s : List Char} {ts : List Stmt} {rfin : List Char}
    (h : StmtChainWs recStmt s ts rfin) :
    ts.length + rfin.length ≤ s.length := by
  induction h with
  | done s h => simp
  | step s r t ts rfin h hlen hrest ih =>
    simp only [List.length_cons]
    omega

/-- The successor-fuel unfolding of `manyLoop`. -/
theorem manyLoop_succ {α : Type} (p : Parser α) (f : Nat) (s : List Char) :
    manyLoop p (f + 1) s =
      match p s with
      | none => some (s, [])
      | some (s1, a) =>
        match manyLoop p f s1 with
        | none => none
        | some (s2, xs) => some (s2, a :: xs) := rfl

/-- `many0` over the (whitespace, statement) step collects exactly
the chain's statements, in chain order, given enough fuel. -/
theorem manyLoop_of_chain (recStmt : Parser Stmt)
    (s : List Char) (ts : List Stmt) (rfin : List Char)
    (hch : StmtChainWs recStmt s ts rfin) :
    ∀ fuel, ts.length < fuel →
      manyLoop (fun i =>
        match recStmt (dropWs i) with
        | none => none
        | some (r, t) => some (r, t)) fuel s = some (rfin, ts) := by
  induction hch with
  | done s h =>
    intro fuel hf
    cases fuel with
    | zero => exact absurd hf (Nat.not_lt_zero _)
    | succ f =>
      simp only [manyLoop_succ]
      simp [h]
  | step s r t ts rfin h hlen hrest ih =>
    intro fuel hf
    cases fuel with
    | zero => exact absurd hf (Nat.not_lt_zero _)
    | succ f =>
      have hf2 : ts.length < f := by
        simp only [List.length_cons] at hf
        omega
      simp only [manyLoop_succ]
      simp [h, ih f hf2]

/-- C8: whenever the statement parser consumes a first statement and
the remaining input is a chain of further statements separated by
optional whitespace, `block_body` returns the block whose statements
vector lists exactly those statements in source order — none
reordered, duplicated or dropped. -/
theorem C8_block_order (recStmt : Parser Stmt)
    (s r1 rfin : List Char) (t1 : Stmt) (ts : List Stmt)
    (h1 : recStmt s = some (r1, t1))
    (hch : StmtChainWs recStmt r1 ts rfin) :
    parsing.block_body_core recStmt s = some (rfin, Block.mk (t1 :: ts)) := by
  have hlen := hch.length_le
  unfold parsing.block_body_core
  rw [h1]
  simp only [many0P]
  rw [manyLoop_of_chain recStmt r1 ts rfin hch (r1.length + 1) (by omega)]

/-- C8 witness: `"a::b; c::d;"` (the body of the claim's example)
parses to a block whose two statements are the `a::b` mapping then
the `c::d` mapping, in that source order; the braced form
`"{ a::b; c::d; }"` yields the same block. -/
theorem C8_witness :
    parsing.block_body "a::b; c::d;".data
      = some ([], Block.mk
          [Stmt.Expr (Expr.KeyMappingInline
              { key := make_key 97, modifiers := KeyModifierFlags.new }
              { key := make_key 98, modifiers := KeyModifierFlags.new }),
           Stmt.Expr (Expr.KeyMappingInline
              { key := make_key 99, modifiers := KeyModifierFlags.new }
              { key := make_key 100, modifiers := KeyModifierFlags.new })]) ∧
    parsing.block "{ a::b; c::d; }".data
      = some ([], Block.mk
          [Stmt.Expr (Expr.KeyMappingInline
              { key := make_key 97, modifiers := KeyModifierFlags.new }
              { key := make_key 98, modifiers := KeyModifierFlags.new }),
           Stmt.Expr (Expr.KeyMappingInline
              { key := make_key 99, modifiers := KeyModifierFlags.new }
              { key := make_key 100, modifiers := KeyModifierFlags.new })]) := by
  constructor
  · have hch : StmtChainWs (parsing.stmtF 11) " c::d;".data
        [Stmt.Expr (Expr.KeyMappingInline
            { key := make_key 99, modifiers := KeyModifierFlags.new }
            { key := make_key 100, modifiers := KeyModifierFlags.new })] [] :=
      StmtChainWs.step _ [] _ _ _ rfl (by decide)
        (StmtChainWs.done [] rfl)
    exact C8_block_order (parsing.stmtF 11) "a::b; c::d;".data
      " c::d;".data []
      (Stmt.Expr (Expr.KeyMappingInline
          { key := make_key 97, modifiers := KeyModifierFlags.new }
          { key := make_key 98, modifiers := KeyModifierFlags.new }))
      [Stmt.Expr (Expr.KeyMappingInline
          { key := make_key 99, modifiers := KeyModifierFlags.new }
          { key := make_key 100, modifiers := KeyModifierFlags.new })]
      rfl hch
  · rfl
